import Mathlib

/-!
# Verification of the Hospital Management System core (HMS.py)

Shallow embedding of the data model and the `DB` repository operations of the
two source variants of this repository:

* variant 1: `src/HMS.py` (namespace `HMS1` for the operations where the two
  variants diverge),
* variant 2: `src/HospitalManagementSystem-Python/HMS.py` (namespace `HMS2`),
* operations whose bodies are textually identical in both files live in
  namespace `HMS`.

Modelling conventions (documented once here):

* SQLite rows become Lean structures; a table is a `List` of rows, and the
  whole database is a `DBState`.  Row ids are `Nat` (INTEGER PRIMARY KEY
  AUTOINCREMENT); a fresh id is one more than the maximum id in the table,
  which matches AUTOINCREMENT on states that never delete rows (none of the
  modelled operations deletes).
* ISO-8601 date strings (`YYYY-MM-DD`) compare lexicographically in SQLite
  exactly in chronological order, and `HH:MM` time strings likewise; they are
  therefore modelled as `Int` day numbers and `Nat` minute-of-day numbers.
  `date.today()` and `datetime.now()` are passed in as explicit clock
  arguments (`today : Int`, `now`), since each operation reads the clock once.
* Nullable columns are `Option _`.  SQL `col = 'lit'` on a NULL column is not
  a match (NULL comparisons are never true), which `Option.some`-equality
  models.  In `ORDER BY ... DESC`, SQLite puts NULL last (NULL is smallest);
  `timeKey` below encodes that order on `Option Nat`.
* `JOIN`/`LEFT JOIN ... ON x.id = y` on a PRIMARY KEY column matches at most
  one row, modelled by `List.find?` (first row with the id).
* `json.dumps(vitals_dict) if vitals_dict else None`: the vitals dict is a
  `List (String × String)`; `jsonDumps` is an executable stand-in serializer
  (no claim inspects the serialized text, only whether the column is written
  or preserved); Python truthiness makes both `None` and the empty dict store
  NULL.
* Python `int(term)` (which strips whitespace and accepts an optional sign
  before decimal digits, raising `ValueError` otherwise) is `pyIntParse`;
  SQL `LIKE '%term%'` is the case-insensitive substring test `strContainsCI`.
-/

/-- A row of the `users` table (`id, name, mobile, password_hash, role`). -/
structure User where
  id : Nat
  name : String
  mobile : String
  password_hash : String
  role : String
deriving DecidableEq, Repr

/-- A row of the `patients` table (`id, full_name, address, dob, created_at`). -/
structure Patient where
  id : Nat
  full_name : String
  address : String
  dob : String
  created_at : String
deriving DecidableEq, Repr

/-- A row of the `visits` table.  `date` is an ISO date modelled as a day
number, `time_in`/`time_out` are `HH:MM` times modelled as minute numbers. -/
structure Visit where
  id : Nat
  patient_id : Nat
  assigned_doctor_id : Option Nat
  date : Int
  time_in : Option Nat
  time_out : Option Nat
  service : Option String
  status : Option String
  vitals_json : Option String
  doctor_notes : Option String
  pharmacy_instructions : Option String
  pharmacy_status : Option String
deriving DecidableEq, Repr

/-- The whole SQLite database `vital_signs.db`. -/
structure DBState where
  users : List User
  patients : List Patient
  visits : List Visit
deriving DecidableEq, Repr

/-- `INTEGER PRIMARY KEY AUTOINCREMENT`: the rowid assigned to an insert. -/
def freshId (ids : List Nat) : Nat := ids.foldr max 0 + 1

/-- `JOIN patients p ON v.patient_id = p.id` — at most one row matches the
primary key. -/
def lookupPatient (db : DBState) (pid : Nat) : Option Patient :=
  db.patients.find? (fun p => p.id == pid)

/-- `LEFT JOIN users u ON v.assigned_doctor_id = u.id`: a NULL doctor id or a
doctor id matching no user row leaves the user columns NULL. -/
def lookupDoctor (db : DBState) (adid : Option Nat) : Option User :=
  match adid with
  | none => none
  | some d => db.users.find? (fun u => u.id == d)

/-- Python truthiness of an optional string (`None` and `""` are falsy). -/
def pyTruthyStr : Option String → Bool
  | none => false
  | some s => !s.isEmpty

/-- Executable stand-in for `json.dumps` on the vitals dict (the claims only
ever test whether the `vitals_json` column is written or preserved, never its
text). -/
def jsonDumps (d : List (String × String)) : String :=
  String.intercalate "," (d.map (fun kv => kv.1 ++ ":" ++ kv.2))

/-- `json.dumps(vitals_dict) if vitals_dict else None`: `None` and the empty
dict (both falsy) store NULL. -/
def serializeVitals : Option (List (String × String)) → Option String
  | none => none
  | some d => if d.isEmpty then none else some (jsonDumps d)

/-- The characters of `s` with surrounding whitespace stripped. -/
def pyStrip (s : String) : List Char :=
  ((s.toList.dropWhile Char.isWhitespace).reverse.dropWhile
    Char.isWhitespace).reverse

/-- The value of a non-empty all-digit character list, `none` otherwise. -/
def digitsVal? (cs : List Char) : Option Nat :=
  if cs.isEmpty then none
  else cs.foldl (fun acc c =>
    match acc with
    | none => none
    | some n => if c.isDigit then some (n * 10 + (c.toNat - 48)) else none)
    (some 0)

/-- Python `int(term)`: strip whitespace, optional sign, decimal digits;
`none` models the `ValueError` of a non-numeric term. -/
def pyIntParse (s : String) : Option Int :=
  match pyStrip s with
  | '-' :: rest => (digitsVal? rest).map (fun n => -(n : Int))
  | '+' :: rest => (digitsVal? rest).map (fun n => (n : Int))
  | t => (digitsVal? t).map (fun n => (n : Int))

/-- SQLite comparison of an INTEGER id column against a TEXT parameter:
numeric affinity converts an integer-literal text to its value (used by
variant 2, which binds the raw search term against `v.id`). -/
def sqlTextEqNat (t : String) (n : Nat) : Bool :=
  pyIntParse t == some (n : Int)

/-- Case-insensitive substring test: SQL `s LIKE '%pat%'` (SQLite LIKE is
case-insensitive on ASCII). -/
def strContainsCI (s pat : String) : Bool :=
  let sl := s.toList.map Char.toLower
  let pl := pat.toList.map Char.toLower
  (List.range (sl.length + 1)).any (fun i => (sl.drop i).take pl.length == pl)

/-- `col LIKE '%pat%'` on a nullable column: NULL never matches. -/
def optLikeCI (o : Option String) (pat : String) : Bool :=
  match o with
  | none => false
  | some s => strContainsCI s pat

/-- Sort key of `ORDER BY v.date DESC, v.time_in DESC`. -/
def Visit.sortKey (v : Visit) : Int × Option Nat := (v.date, v.time_in)

/-- NULL sorts as the smallest time (last under DESC). -/
def timeKey : Option Nat → Nat
  | none => 0
  | some t => t + 1

/-- `a` may precede `b` under `ORDER BY date DESC, time_in DESC`. -/
def dateTimeDesc (a b : Int × Option Nat) : Prop :=
  b.1 < a.1 ∨ (a.1 = b.1 ∧ timeKey b.2 ≤ timeKey a.2)

instance : DecidableRel dateTimeDesc := fun a b => by
  unfold dateTimeDesc; infer_instance

def dateTimeDescTotal (a b : Int × Option Nat) :
    dateTimeDesc a b ∨ dateTimeDesc b a := by
  unfold dateTimeDesc
  rcases lt_trichotomy a.1 b.1 with h | h | h
  · exact Or.inr (Or.inl h)
  · rcases Nat.le_total (timeKey b.2) (timeKey a.2) with ht | ht
    · exact Or.inl (Or.inr ⟨h, ht⟩)
    · exact Or.inr (Or.inr ⟨h.symm, ht⟩)
  · exact Or.inl (Or.inl h)

def dateTimeDescTrans (a b c : Int × Option Nat)
    (hab : dateTimeDesc a b) (hbc : dateTimeDesc b c) : dateTimeDesc a c := by
  unfold dateTimeDesc at *
  rcases hab with h | ⟨h1, h2⟩ <;> rcases hbc with h' | ⟨h1', h2'⟩
  · exact Or.inl (h'.trans h)
  · exact Or.inl (h1' ▸ h)
  · exact Or.inl (h1 ▸ h')
  · exact Or.inr ⟨h1.trans h1', h2'.trans h2⟩

/-- A result row of the queries that join `visits` with `patients` and (via
LEFT JOIN or JOIN) pull the assigned doctor's name (`get_visit`,
`get_visits_for_pharmacy`, `search_visits`). -/
structure SRow where
  v : Visit
  p : Patient
  doctor_name : Option String
deriving DecidableEq, Repr

/-- A result row of `get_patient_visit_history` (LEFT JOIN with `users` only;
`u.id, u.name` are the selected doctor columns). -/
structure HRow where
  v : Visit
  doctor : Option User
deriving DecidableEq, Repr

/-- `ORDER BY v.date DESC, v.time_in DESC` on patient-joined rows. -/
def srowLE (a b : SRow) : Prop := dateTimeDesc a.v.sortKey b.v.sortKey

instance : DecidableRel srowLE := fun a b => by
  unfold srowLE; infer_instance

instance : IsTotal SRow srowLE := ⟨fun x y => dateTimeDescTotal x.v.sortKey y.v.sortKey⟩

instance : IsTrans SRow srowLE := ⟨fun x y z => dateTimeDescTrans x.v.sortKey y.v.sortKey z.v.sortKey⟩

/-- `ORDER BY v.date DESC, v.time_in DESC` on `get_visits_for_doctor` rows. -/
def drowLE (a b : Visit × Patient) : Prop := dateTimeDesc a.1.sortKey b.1.sortKey

instance : DecidableRel drowLE := fun a b => by
  unfold drowLE; infer_instance

instance : IsTotal (Visit × Patient) drowLE := ⟨fun x y => dateTimeDescTotal x.1.sortKey y.1.sortKey⟩

instance : IsTrans (Visit × Patient) drowLE := ⟨fun x y z => dateTimeDescTrans x.1.sortKey y.1.sortKey z.1.sortKey⟩

/-- `ORDER BY v.date DESC, v.time_in DESC` on history rows. -/
def hrowLE (a b : HRow) : Prop := dateTimeDesc a.v.sortKey b.v.sortKey

instance : DecidableRel hrowLE := fun a b => by
  unfold hrowLE; infer_instance

instance : IsTotal HRow hrowLE := ⟨fun x y => dateTimeDescTotal x.v.sortKey y.v.sortKey⟩

instance : IsTrans HRow hrowLE := ⟨fun x y z => dateTimeDescTrans x.v.sortKey y.v.sortKey z.v.sortKey⟩

namespace HMS

/-- `DB.add_patient` — identical in `src/HMS.py` (lines 602-610) and
`src/HospitalManagementSystem-Python/HMS.py` (lines 427-435).  `now` is the
`datetime.now().isoformat()` value read inside the call; `dob or ""` stores
the empty string for a falsy dob.  No validation is performed on any field.
Returns `lastrowid` and the new state. -/
def add_patient (db : DBState) (full_name address : String) (dob : Option String)
    (now : String) : Nat × DBState :=
  let pid := freshId (db.patients.map Patient.id)
  (pid, { db with patients := db.patients ++
    [{ id := pid, full_name := full_name, address := address,
       dob := (dob.getD ""), created_at := now }] })

/-- `DB.update_visit` — identical in both variants (`src/HMS.py` lines
704-717).  `UPDATE visits SET assigned_doctor_id, date, time_in, time_out,
service, status, vitals_json, doctor_notes, pharmacy_instructions WHERE id=?`:
a full replace of those nine columns; `pharmacy_status` is not in the SET
list. -/
def update_visit (db : DBState) (visit_id : Nat) (assigned_doctor_id : Option Nat)
    (visit_date : Int) (time_in time_out : Option Nat)
    (service status : Option String)
    (vitals_dict : Option (List (String × String)))
    (doctor_notes pharmacy_instructions : Option String) : DBState :=
  { db with visits := db.visits.map (fun v =>
      if v.id = visit_id then
        { v with assigned_doctor_id := assigned_doctor_id, date := visit_date,
                 time_in := time_in, time_out := time_out, service := service,
                 status := status, vitals_json := serializeVitals vitals_dict,
                 doctor_notes := doctor_notes,
                 pharmacy_instructions := pharmacy_instructions }
      else v) }

/-- `DB.get_visit` — identical in both variants (`src/HMS.py` lines 719-745).
`SELECT ... FROM visits v JOIN patients p ON v.patient_id = p.id LEFT JOIN
users u ON v.assigned_doctor_id = u.id WHERE v.id = ?` then `fetchone()`:
the first visit row with the id that has a matching patient; `None` when no
row survives the inner join. -/
def get_visit (db : DBState) (visit_id : Nat) : Option SRow :=
  (db.visits.filterMap (fun v =>
    if v.id = visit_id then
      (lookupPatient db v.patient_id).map (fun p =>
        SRow.mk v p ((lookupDoctor db v.assigned_doctor_id).map User.name))
    else none)).head?

/-- `DB.get_visits_for_doctor` — identical in both variants (`src/HMS.py`
lines 769-788).  `JOIN patients` (inner), no users join, `WHERE
v.assigned_doctor_id = ?`, `ORDER BY v.date DESC, v.time_in DESC`. -/
def get_visits_for_doctor (db : DBState) (doctor_id : Nat) : List (Visit × Patient) :=
  List.insertionSort drowLE
    (db.visits.filterMap (fun v =>
      if v.assigned_doctor_id = some doctor_id then
        (lookupPatient db v.patient_id).map (fun p => (v, p))
      else none))

/-- `DB.get_visits_for_pharmacy` — identical in both variants (`src/HMS.py`
lines 790-811).  `JOIN patients` (inner), `LEFT JOIN users`, `WHERE
v.pharmacy_status = 'Pending' OR v.status = 'Visit Pharmacy'`, `ORDER BY
v.date DESC, v.time_in DESC`. -/
def get_visits_for_pharmacy (db : DBState) : List SRow :=
  List.insertionSort srowLE
    (db.visits.filterMap (fun v =>
      if v.pharmacy_status = some "Pending" ∨ v.status = some "Visit Pharmacy" then
        (lookupPatient db v.patient_id).map (fun p =>
          SRow.mk v p ((lookupDoctor db v.assigned_doctor_id).map User.name))
      else none))

/-- `DB.get_patient_visit_history` — identical in both variants (`src/HMS.py`
lines 662-688).  `today` models `date.today()`; `start_date = today -
timedelta(days=days-1)`; `WHERE v.patient_id = ? AND v.date BETWEEN
start_date AND end_date` (BETWEEN is inclusive on both ends), `LEFT JOIN
users`, `ORDER BY v.date DESC, v.time_in DESC`. -/
def get_patient_visit_history (db : DBState) (patient_id : Nat) (today : Int)
    (days : Int) : List HRow :=
  let end_date := today
  let start_date := today - (days - 1)
  List.insertionSort hrowLE
    (db.visits.filterMap (fun v =>
      if v.patient_id = patient_id ∧ start_date ≤ v.date ∧ v.date ≤ end_date then
        some (HRow.mk v (lookupDoctor db v.assigned_doctor_id))
      else none))

end HMS

namespace HMS1

/-- `DB.add_visit` of `src/HMS.py` (lines 691-702).  Inserts the row with
`pharmacy_status` set unconditionally to `"Pending"`; no check that
`patient_id` references an existing patient is performed.  Returns
`lastrowid` and the new state. -/
def add_visit (db : DBState) (patient_id : Nat) (assigned_doctor_id : Option Nat)
    (visit_date : Int) (time_in time_out : Option Nat)
    (service : Option String) (status : String)
    (vitals_dict : Option (List (String × String)))
    (doctor_notes pharmacy_instructions : Option String) : Nat × DBState :=
  let vid := freshId (db.visits.map Visit.id)
  (vid, { db with visits := db.visits ++
    [{ id := vid, patient_id := patient_id,
       assigned_doctor_id := assigned_doctor_id, date := visit_date,
       time_in := time_in, time_out := time_out, service := service,
       status := some status, vitals_json := serializeVitals vitals_dict,
       doctor_notes := doctor_notes,
       pharmacy_instructions := pharmacy_instructions,
       pharmacy_status := some "Pending" }] })

/-- `DB.update_visit_status` of `src/HMS.py` (lines 813-823).  When
`pharmacy_instructions` is truthy it writes `status`, `doctor_notes` and
`pharmacy_instructions`; otherwise it writes `status` and `doctor_notes`
(so an omitted `doctor_notes` overwrites the stored value with NULL). -/
def update_visit_status (db : DBState) (visit_id : Nat) (new_status : String)
    (doctor_notes pharmacy_instructions : Option String) : DBState :=
  { db with visits := db.visits.map (fun v =>
      if v.id = visit_id then
        if pyTruthyStr pharmacy_instructions then
          { v with status := some new_status, doctor_notes := doctor_notes,
                   pharmacy_instructions := pharmacy_instructions }
        else
          { v with status := some new_status, doctor_notes := doctor_notes }
      else v) }

/-- `DB.update_pharmacy_status_and_timeout` of `src/HMS.py` (lines 825-838).
`now` models `datetime.now().strftime("%H:%M")`.  On `"Completed"` it sets
`pharmacy_status` and `time_out`; otherwise only `pharmacy_status`.  The
`status` column is never touched in this variant. -/
def update_pharmacy_status_and_timeout (db : DBState) (visit_id : Nat)
    (new_status : String) (now : Nat) : DBState :=
  { db with visits := db.visits.map (fun v =>
      if v.id = visit_id then
        if new_status = "Completed" then
          { v with pharmacy_status := some new_status, time_out := some now }
        else
          { v with pharmacy_status := some new_status }
      else v) }

/-- `DB.search_visits` of `src/HMS.py` (lines 840-899).  `JOIN patients`
and `JOIN users` are both inner joins here, so a visit without an assigned
(and existing) doctor produces no row.  `int(search_term)` decides whether
the `v.id = ?` disjunct is included (`except ValueError` drops it); the
pharmacy role adds the queue filter and drops the `doctor_notes` LIKE. -/
def search_visits (db : DBState) (search_term role : String) : List SRow :=
  List.insertionSort srowLE
    (db.visits.filterMap (fun v =>
      match lookupPatient db v.patient_id, lookupDoctor db v.assigned_doctor_id with
      | some p, some u =>
        let textMatch :=
          if role = "pharmacy" then
            strContainsCI p.full_name search_term ||
            optLikeCI v.service search_term ||
            optLikeCI v.pharmacy_instructions search_term
          else
            strContainsCI p.full_name search_term ||
            optLikeCI v.service search_term ||
            optLikeCI v.doctor_notes search_term ||
            optLikeCI v.pharmacy_instructions search_term
        let m :=
          match pyIntParse search_term with
          | some sid => (sid == (v.id : Int)) || textMatch
          | none => textMatch
        let cond :=
          if role = "pharmacy" then
            m && (v.pharmacy_status == some "Pending" || v.status == some "Visit Pharmacy")
          else m
        if cond then some (SRow.mk v p (some u.name)) else none
      | _, _ => none))

end HMS1

namespace HMS2

/-- `DB.add_visit` of `src/HospitalManagementSystem-Python/HMS.py` (lines
514-525).  Identical to the variant-1 insert except that `pharmacy_status`
is `"Pending"` if `status == "Visit Pharmacy"` else `"Not Applicable"`.
No patient existence check is performed. -/
def add_visit (db : DBState) (patient_id : Nat) (assigned_doctor_id : Option Nat)
    (visit_date : Int) (time_in time_out : Option Nat)
    (service : Option String) (status : String)
    (vitals_dict : Option (List (String × String)))
    (doctor_notes pharmacy_instructions : Option String) : Nat × DBState :=
  let vid := freshId (db.visits.map Visit.id)
  (vid, { db with visits := db.visits ++
    [{ id := vid, patient_id := patient_id,
       assigned_doctor_id := assigned_doctor_id, date := visit_date,
       time_in := time_in, time_out := time_out, service := service,
       status := some status, vitals_json := serializeVitals vitals_dict,
       doctor_notes := doctor_notes,
       pharmacy_instructions := pharmacy_instructions,
       pharmacy_status := some (if status = "Visit Pharmacy" then "Pending"
                                else "Not Applicable") }] })

/-- `DB.update_visit_status` of `src/HospitalManagementSystem-Python/HMS.py`
(lines 636-665).  Builds the SET list dynamically: `status` is always
written; `doctor_notes`, `pharmacy_instructions` and `vitals_json` are
written only when the corresponding argument `is not None`. -/
def update_visit_status (db : DBState) (visit_id : Nat) (new_status : String)
    (doctor_notes pharmacy_instructions : Option String)
    (vitals_dict : Option (List (String × String))) : DBState :=
  { db with visits := db.visits.map (fun v =>
      if v.id = visit_id then
        { v with status := some new_status,
                 doctor_notes := (match doctor_notes with
                   | some s => some s
                   | none => v.doctor_notes),
                 pharmacy_instructions := (match pharmacy_instructions with
                   | some s => some s
                   | none => v.pharmacy_instructions),
                 vitals_json := (match vitals_dict with
                   | some d => some (jsonDumps d)
                   | none => v.vitals_json) }
      else v) }

/-- `DB.update_pharmacy_status_and_timeout` of
`src/HospitalManagementSystem-Python/HMS.py` (lines 667-682).  On
`"Completed"` it sets `pharmacy_status`, forces `status = 'Done'` and stamps
`time_out`; otherwise only `pharmacy_status` is rewritten. -/
def update_pharmacy_status_and_timeout (db : DBState) (visit_id : Nat)
    (new_status : String) (now : Nat) : DBState :=
  { db with visits := db.visits.map (fun v =>
      if v.id = visit_id then
        if new_status = "Completed" then
          { v with pharmacy_status := some new_status, status := some "Done",
                   time_out := some now }
        else
          { v with pharmacy_status := some new_status }
      else v) }

/-- `DB.search_visits` of `src/HospitalManagementSystem-Python/HMS.py`
(lines 684-726).  `JOIN patients` (inner), `LEFT JOIN users`; `WHERE
(p.full_name LIKE '%t%' OR v.patient_id = t OR v.id = t)` with
`search_term.strip()` bound against the integer id columns (SQLite numeric
affinity: matches exactly when the stripped term parses as that integer —
since the affinity model `pyIntParse` strips whitespace itself, the
source's extra `.strip()` is absorbed into `sqlTextEqNat`); the pharmacy
role adds the queue filter. -/
def search_visits (db : DBState) (search_term role : String) : List SRow :=
  List.insertionSort srowLE
    (db.visits.filterMap (fun v =>
      match lookupPatient db v.patient_id with
      | none => none
      | some p =>
        let baseMatch :=
          strContainsCI p.full_name search_term ||
          sqlTextEqNat search_term v.patient_id ||
          sqlTextEqNat search_term v.id
        let cond :=
          if role = "pharmacy" then
            baseMatch && (v.pharmacy_status == some "Pending" ||
                          v.status == some "Visit Pharmacy")
          else baseMatch
        if cond then
          some (SRow.mk v p ((lookupDoctor db v.assigned_doctor_id).map User.name))
        else none))

end HMS2

/-! ## Concrete states used by witnesses and counterexamples -/

/-- A registered patient. -/
def pA : Patient :=
  { id := 1, full_name := "John Doe", address := "123 Main St",
    dob := "1990-01-01", created_at := "2024-01-01T09:00:00" }

/-- A doctor user row. -/
def uDoc : User :=
  { id := 1, name := "Collins Mark", mobile := "9781328959",
    password_hash := "h", role := "doctor" }

/-- One visit in the pharmacy workflow, assigned to `uDoc`. -/
def vPharm : Visit :=
  { id := 1, patient_id := 1, assigned_doctor_id := some 1, date := 100,
    time_in := some 540, time_out := none, service := some "General Consultation",
    status := some "Visit Pharmacy", vitals_json := none, doctor_notes := some "n",
    pharmacy_instructions := some "Dispense ibuprofen",
    pharmacy_status := some "Pending" }

/-- Database for the pharmacy-completion counterexample and witness. -/
def dbC1 : DBState := { users := [uDoc], patients := [pA], visits := [vPharm] }

/-- Database with one patient and no visits. -/
def dbP : DBState := { users := [], patients := [pA], visits := [] }

/-- The empty database. -/
def dbEmpty : DBState := { users := [], patients := [], visits := [] }

/-- A visit carrying stored doctor notes (for the partial-update claim). -/
def vNotes : Visit :=
  { id := 1, patient_id := 1, assigned_doctor_id := none, date := 100,
    time_in := some 540, time_out := none, service := some "Checkup",
    status := some "In Progress", vitals_json := some "bp:120",
    doctor_notes := some "keep", pharmacy_instructions := some "old",
    pharmacy_status := some "Not Applicable" }

/-- Database for the partial-update claim. -/
def dbNotes : DBState := { users := [], patients := [pA], visits := [vNotes] }

/-- The four pharmacy-queue combinations of
pharmacy_status ∈ {Pending, Completed} × status ∈ {Visit Pharmacy, Done}. -/
def vq1 : Visit :=
  { id := 1, patient_id := 1, assigned_doctor_id := some 1, date := 103,
    time_in := some 600, time_out := none, service := some "S1",
    status := some "Visit Pharmacy", vitals_json := none, doctor_notes := none,
    pharmacy_instructions := some "I1", pharmacy_status := some "Pending" }

def vq2 : Visit :=
  { id := 2, patient_id := 1, assigned_doctor_id := some 1, date := 102,
    time_in := some 550, time_out := none, service := some "S2",
    status := some "Visit Pharmacy", vitals_json := none, doctor_notes := none,
    pharmacy_instructions := some "I2", pharmacy_status := some "Completed" }

def vq3 : Visit :=
  { id := 3, patient_id := 1, assigned_doctor_id := none, date := 101,
    time_in := some 500, time_out := some 520, service := some "S3",
    status := some "Done", vitals_json := none, doctor_notes := none,
    pharmacy_instructions := some "I3", pharmacy_status := some "Pending" }

def vq4 : Visit :=
  { id := 4, patient_id := 1, assigned_doctor_id := some 1, date := 104,
    time_in := some 610, time_out := some 640, service := some "S4",
    status := some "Done", vitals_json := none, doctor_notes := none,
    pharmacy_instructions := some "I4", pharmacy_status := some "Completed" }

/-- Database holding all four queue combinations. -/
def dbQueue : DBState :=
  { users := [uDoc], patients := [pA], visits := [vq1, vq2, vq3, vq4] }

/-- A visit with no assigned doctor (a legal state: the doctor is nullable
until assigned). -/
def vNoDoc : Visit :=
  { id := 1, patient_id := 1, assigned_doctor_id := none, date := 100,
    time_in := some 540, time_out := none, service := some "Checkup",
    status := some "Scheduled", vitals_json := none, doctor_notes := none,
    pharmacy_instructions := none, pharmacy_status := some "Not Applicable" }

/-- Database for the search-by-id counterexample. -/
def dbNoDoc : DBState := { users := [uDoc], patients := [pA], visits := [vNoDoc] }

/-- Visit 42 of the search witness, assigned to `uDoc`. -/
def vSearch : Visit :=
  { id := 42, patient_id := 1, assigned_doctor_id := some 1, date := 100,
    time_in := some 540, time_out := none, service := some "Checkup",
    status := some "Scheduled", vitals_json := none, doctor_notes := none,
    pharmacy_instructions := none, pharmacy_status := some "Not Applicable" }

/-- Database for the search-by-id witness. -/
def dbSearch : DBState := { users := [uDoc], patients := [pA], visits := [vSearch] }

/-- A visit whose `patient_id` (99) references no patient row. -/
def vDangling : Visit :=
  { id := 5, patient_id := 99, assigned_doctor_id := some 1, date := 100,
    time_in := some 540, time_out := none, service := some "X",
    status := some "Visit Pharmacy", vitals_json := none, doctor_notes := none,
    pharmacy_instructions := some "I", pharmacy_status := some "Pending" }

/-- Database containing the dangling visit (creation performs no existence
check, so such states are reachable). -/
def dbDangling : DBState :=
  { users := [uDoc], patients := [pA], visits := [vDangling] }

/-! ## Helper lemmas -/

theorem mem_sortFilterMap {α β : Type} (r : β → β → Prop) [DecidableRel r]
    (f : α → Option β) (l : List α) (b : β) :
    b ∈ List.insertionSort r (l.filterMap f) ↔ ∃ a, a ∈ l ∧ f a = some b := by
  rw [List.mem_insertionSort, List.mem_filterMap]

/-! ## C7 — full-replace update leaves pharmacy_status unchanged -/

/-- C7: for every existing visit, the full-replace `update_visit` (identical
in both variants) leaves `pharmacy_status` unchanged — the `(id,
pharmacy_status)` projection of the visits table is the same before and
after, for every visit id and every combination of arguments; only the
dedicated pharmacy-status operation writes that column. -/
theorem update_visit_preserves_pharmacy_status (db : DBState) (vid : Nat)
    (adid : Option Nat) (vdate : Int) (tin tout : Option Nat)
    (service status : Option String) (vd : Option (List (String × String)))
    (dn pi : Option String) :
    (HMS.update_visit db vid adid vdate tin tout service status vd dn pi).visits.map
        (fun v => (v.id, v.pharmacy_status))
      = db.visits.map (fun v => (v.id, v.pharmacy_status)) := by
  unfold HMS.update_visit
  simp only [List.map_map]
  apply List.map_congr_left
  intro v _
  by_cases h : v.id = vid <;> simp [h]

/-! ## C6 — patient creation: no name validation, server-side timestamp -/

/-- C6 counterexample: `add_patient` with an empty full name does not fail
and does create a patient record (the claim asserts a ValidationError with
no record created).  The GUI layer validates, but the store operation the
claim cites does not. -/
theorem add_patient_empty_name_cex :
    ((HMS.add_patient dbEmpty "" "addr" none "2024-05-01T10:00:00").2.patients.map
        Patient.full_name = [""]) ∧
    (HMS.add_patient dbEmpty "" "addr" none "2024-05-01T10:00:00").1 = 1 := by
  decide

/-- C6 amended: `add_patient` performs no validation of `full_name` (an empty
name is stored as given); the creation timestamp is stamped server-side — the
stored `created_at` is exactly the `datetime.now().isoformat()` value read
inside the call (`now`), and the source signature `add_patient(full_name,
address, dob)` offers the caller no way to supply it. -/
theorem add_patient_behavior (db : DBState) (name addr : String)
    (dob : Option String) (now : String) :
    ∃ p : Patient,
      (HMS.add_patient db name addr dob now).2.patients = db.patients ++ [p] ∧
      p.full_name = name ∧ p.address = addr ∧ p.dob = dob.getD "" ∧
      p.created_at = now ∧ p.id = (HMS.add_patient db name addr dob now).1 := by
  exact ⟨_, rfl, rfl, rfl, rfl, rfl, rfl⟩

/-! ## C5 — visit creation performs no patient existence check -/

/-- C5 counterexample: on the empty database (no patients at all), creating a
visit for patient 7 does not fail: both variants insert the row and return
its id — the claim asserts a NotFound failure with no visit created. -/
theorem add_visit_no_patient_cex :
    dbEmpty.patients = [] ∧
    ((HMS2.add_visit dbEmpty 7 none 100 none none (some "Checkup") "Scheduled"
        none none none).2.visits.map Visit.patient_id = [7]) ∧
    (HMS2.add_visit dbEmpty 7 none 100 none none (some "Checkup") "Scheduled"
        none none none).1 = 1 ∧
    ((HMS1.add_visit dbEmpty 7 none 100 none none (some "Checkup") "Scheduled"
        none none none).2.visits.map Visit.patient_id = [7]) := by
  decide

/-- C5 amended: `add_visit` performs no existence check on `patient_id` in
either variant (SQLite foreign keys are not enabled; variant 2 declares the
constraint but never issues `PRAGMA foreign_keys`): for every database —
whether or not `patient_id` references a patient — the visit row is appended
with the given `patient_id` and its fresh id is returned. -/
theorem add_visit_no_existence_check (db : DBState) (pid : Nat)
    (adid : Option Nat) (vdate : Int) (tin tout : Option Nat)
    (service : Option String) (status : String)
    (vd : Option (List (String × String))) (dn pi : Option String) :
    (∃ v1 : Visit,
      (HMS1.add_visit db pid adid vdate tin tout service status vd dn pi).2.visits
        = db.visits ++ [v1] ∧ v1.patient_id = pid ∧
      v1.id = (HMS1.add_visit db pid adid vdate tin tout service status vd dn pi).1) ∧
    (∃ v2 : Visit,
      (HMS2.add_visit db pid adid vdate tin tout service status vd dn pi).2.visits
        = db.visits ++ [v2] ∧ v2.patient_id = pid ∧
      v2.id = (HMS2.add_visit db pid adid vdate tin tout service status vd dn pi).1) := by
  exact ⟨⟨_, rfl, rfl, rfl⟩, ⟨_, rfl, rfl, rfl⟩⟩

/-! ## C2 — pharmacy_status default at visit creation -/

/-- C2 counterexample: in variant 1 (`src/HMS.py`), a visit created with
status `"Scheduled"` (≠ `"Visit Pharmacy"`) still gets `pharmacy_status`
`"Pending"`, not the `"Not Applicable"` the claim requires. -/
theorem add_visit_default_cex :
    ("Scheduled" : String) ≠ "Visit Pharmacy" ∧
    ((HMS1.add_visit dbP 1 none 100 (some 540) none (some "Checkup") "Scheduled"
        none none none).2.visits.map Visit.pharmacy_status = [some "Pending"]) := by
  decide

/-- C2 amended: the conditional default (`"Pending"` iff the status is
`"Visit Pharmacy"`, else `"Not Applicable"`) holds in variant 2
(`src/HospitalManagementSystem-Python/HMS.py`); variant 1 (`src/HMS.py`)
initializes `pharmacy_status` to `"Pending"` unconditionally. -/
theorem add_visit_pharmacy_default (db : DBState) (pid : Nat)
    (adid : Option Nat) (vdate : Int) (tin tout : Option Nat)
    (service : Option String) (status : String)
    (vd : Option (List (String × String))) (dn pi : Option String) :
    (∃ v1 : Visit,
      (HMS1.add_visit db pid adid vdate tin tout service status vd dn pi).2.visits
        = db.visits ++ [v1] ∧ v1.pharmacy_status = some "Pending") ∧
    (∃ v2 : Visit,
      (HMS2.add_visit db pid adid vdate tin tout service status vd dn pi).2.visits
        = db.visits ++ [v2] ∧
      v2.pharmacy_status = some (if status = "Visit Pharmacy" then "Pending"
                                 else "Not Applicable")) := by
  exact ⟨⟨_, rfl, rfl⟩, ⟨_, rfl, rfl⟩⟩

/-! ## C1 — completing dispensing: time_out stamp and the status side effect -/

/-- C1 counterexample: in variant 1 (`src/HMS.py`), completing dispensing on
visit 1 stamps `time_out` and sets `pharmacy_status`, but the parent
`status` stays `"Visit Pharmacy"` — it is NOT forced to `"Done"` as the
claim asserts for every variant of `updatePharmacyStatus`. -/
theorem pharmacy_completed_cex :
    ((HMS1.update_pharmacy_status_and_timeout dbC1 1 "Completed" 600).visits.map
        Visit.status = [some "Visit Pharmacy"]) ∧
    ((HMS1.update_pharmacy_status_and_timeout dbC1 1 "Completed" 600).visits.map
        Visit.status ≠ [some "Done"]) ∧
    ((HMS1.update_pharmacy_status_and_timeout dbC1 1 "Completed" 600).visits.map
        Visit.time_out = [some 600]) := by
  decide

/-- C1 amended: for every existing visit, `update_pharmacy_status_and_timeout`
rewrites `pharmacy_status` to the target status in both variants; the target
`"Completed"` additionally stamps `time_out` with the current clock time in
both variants and forces `status` to `"Done"` only in variant 2
(`src/HospitalManagementSystem-Python/HMS.py`) — variant 1 (`src/HMS.py`)
leaves `status` unchanged; any other target status has no `time_out`,
`status` or other side effect in either variant. -/
theorem pharmacy_status_update_behavior (db : DBState) (vid : Nat)
    (ns : String) (now : Nat) (v : Visit) (hv : v ∈ db.visits)
    (hid : v.id = vid) :
    ((if ns = "Completed"
        then { v with pharmacy_status := some ns, time_out := some now }
        else { v with pharmacy_status := some ns })
      ∈ (HMS1.update_pharmacy_status_and_timeout db vid ns now).visits) ∧
    ((if ns = "Completed"
        then { v with pharmacy_status := some ns, status := some "Done",
                      time_out := some now }
        else { v with pharmacy_status := some ns })
      ∈ (HMS2.update_pharmacy_status_and_timeout db vid ns now).visits) := by
  constructor
  · have h := List.mem_map_of_mem (fun w =>
      if w.id = vid then
        if ns = "Completed" then
          { w with pharmacy_status := some ns, time_out := some now }
        else
          { w with pharmacy_status := some ns }
      else w) hv
    simpa [HMS1.update_pharmacy_status_and_timeout, hid] using h
  · have h := List.mem_map_of_mem (fun w =>
      if w.id = vid then
        if ns = "Completed" then
          { w with pharmacy_status := some ns, status := some "Done",
                   time_out := some now }
        else
          { w with pharmacy_status := some ns }
      else w) hv
    simpa [HMS2.update_pharmacy_status_and_timeout, hid] using h

/-- C1 witness: completing dispensing on the concrete visit 1 of `dbC1`. -/
theorem pharmacy_status_update_behavior_witness :
    (vPharm ∈ dbC1.visits ∧ vPharm.id = 1) ∧
    (((if ("Completed" : String) = "Completed"
        then { vPharm with pharmacy_status := some "Completed", time_out := some 600 }
        else { vPharm with pharmacy_status := some "Completed" })
      ∈ (HMS1.update_pharmacy_status_and_timeout dbC1 1 "Completed" 600).visits) ∧
    ((if ("Completed" : String) = "Completed"
        then { vPharm with pharmacy_status := some "Completed",
                           status := some "Done", time_out := some 600 }
        else { vPharm with pharmacy_status := some "Completed" })
      ∈ (HMS2.update_pharmacy_status_and_timeout dbC1 1 "Completed" 600).visits)) :=
  ⟨⟨by decide, by decide⟩,
    pharmacy_status_update_behavior dbC1 1 "Completed" 600 vPharm (by decide) (by decide)⟩

/-! ## C4 — updateStatus: which omitted fields are retained -/

/-- C4 counterexample: in variant 1 (`src/HMS.py`), `update_visit_status`
with `doctor_notes` omitted (None) overwrites the stored notes with NULL —
the omitted optional field does not retain its prior value. -/
theorem update_status_frame_cex :
    dbNotes.visits.map Visit.doctor_notes = [some "keep"] ∧
    (HMS1.update_visit_status dbNotes 1 "Done" none none).visits.map
        Visit.doctor_notes = [none] := by
  decide

/-- C4 amended: for every existing visit, variant 2
(`src/HospitalManagementSystem-Python/HMS.py`) implements the claimed
partial update — `status` is written and each of `doctor_notes`,
`pharmacy_instructions`, `vitals` is written only when supplied, retaining
the prior stored value otherwise (`Option.or`).  Variant 1 (`src/HMS.py`)
instead always writes `doctor_notes` (an omitted value overwrites the stored
notes with NULL), writes `pharmacy_instructions` only when supplied and
truthy (retaining the prior value otherwise), and has no vitals parameter at
all (`vitals_json` is always retained). -/
theorem update_status_partial_behavior (db : DBState) (vid : Nat)
    (ns : String) (dn pi : Option String)
    (vd : Option (List (String × String))) (v : Visit)
    (hv : v ∈ db.visits) (hid : v.id = vid) :
    ({ v with status := some ns, doctor_notes := dn,
              pharmacy_instructions :=
                if pyTruthyStr pi then pi else v.pharmacy_instructions }
      ∈ (HMS1.update_visit_status db vid ns dn pi).visits) ∧
    ({ v with status := some ns, doctor_notes := dn.or v.doctor_notes,
              pharmacy_instructions := pi.or v.pharmacy_instructions,
              vitals_json := (vd.map jsonDumps).or v.vitals_json }
      ∈ (HMS2.update_visit_status db vid ns dn pi vd).visits) := by
  constructor
  · unfold HMS1.update_visit_status
    rw [List.mem_map]
    refine ⟨v, hv, ?_⟩
    rw [if_pos hid]
    by_cases hpi : pyTruthyStr pi = true
    · rw [if_pos hpi, if_pos hpi]
    · rw [if_neg hpi, if_neg hpi]
  · unfold HMS2.update_visit_status
    rw [List.mem_map]
    refine ⟨v, hv, ?_⟩
    rw [if_pos hid]
    rcases dn with _ | d <;> rcases pi with _ | q <;> rcases vd with _ | w <;> rfl

/-- C4 witness: a save on the concrete visit 1 of `dbNotes` that supplies
pharmacy instructions but omits doctor notes and vitals. -/
theorem update_status_partial_behavior_witness :
    (vNotes ∈ dbNotes.visits ∧ vNotes.id = 1) ∧
    (({ vNotes with status := some "Done", doctor_notes := none,
                    pharmacy_instructions :=
                      if pyTruthyStr (some "Rx") then some "Rx"
                      else vNotes.pharmacy_instructions }
        ∈ (HMS1.update_visit_status dbNotes 1 "Done" none (some "Rx")).visits) ∧
     ({ vNotes with status := some "Done",
                    doctor_notes := Option.or none vNotes.doctor_notes,
                    pharmacy_instructions :=
                      Option.or (some "Rx") vNotes.pharmacy_instructions,
                    vitals_json :=
                      Option.or (Option.map jsonDumps
                        (none : Option (List (String × String))))
                        vNotes.vitals_json }
        ∈ (HMS2.update_visit_status dbNotes 1 "Done" none (some "Rx") none).visits)) :=
  ⟨⟨by decide, by decide⟩,
    update_status_partial_behavior dbNotes 1 "Done" none (some "Rx") none vNotes
      (by decide) (by decide)⟩

/-! ## C3 — the pharmacy queue filter and ordering -/

/-- C3: on a database satisfying the data-model invariant that every visit's
`patient_id` references an existing patient, `get_visits_for_pharmacy`
(identical in both variants) returns exactly the visits with
`pharmacy_status = "Pending"` or `status = "Visit Pharmacy"` — every such
visit appears, every other visit is excluded — and the result is ordered by
date descending, then time_in descending. -/
theorem pharmacy_queue_exact (db : DBState)
    (hpat : ∀ v ∈ db.visits, ∃ p ∈ db.patients, p.id = v.patient_id) :
    (∀ v : Visit,
      (∃ r ∈ HMS.get_visits_for_pharmacy db, r.v = v) ↔
        (v ∈ db.visits ∧
          (v.pharmacy_status = some "Pending" ∨ v.status = some "Visit Pharmacy"))) ∧
    List.Sorted srowLE (HMS.get_visits_for_pharmacy db) := by
  constructor
  · intro v
    constructor
    · rintro ⟨r, hr, rfl⟩
      unfold HMS.get_visits_for_pharmacy at hr
      rw [mem_sortFilterMap] at hr
      obtain ⟨a, ha, hfa⟩ := hr
      by_cases hc : a.pharmacy_status = some "Pending" ∨ a.status = some "Visit Pharmacy"
      · rw [if_pos hc] at hfa
        rw [Option.map_eq_some'] at hfa
        obtain ⟨p, _, hmk⟩ := hfa
        rw [← hmk]
        exact ⟨ha, hc⟩
      · rw [if_neg hc] at hfa
        simp at hfa
    · rintro ⟨hv, hc⟩
      have hsome : (lookupPatient db v.patient_id).isSome := by
        unfold lookupPatient
        rw [List.find?_isSome]
        obtain ⟨p, hp, hpid⟩ := hpat v hv
        exact ⟨p, hp, by simp [hpid]⟩
      obtain ⟨p', hp'⟩ := Option.isSome_iff_exists.mp hsome
      refine ⟨SRow.mk v p' ((lookupDoctor db v.assigned_doctor_id).map User.name),
        ?_, rfl⟩
      unfold HMS.get_visits_for_pharmacy
      rw [mem_sortFilterMap]
      refine ⟨v, hv, ?_⟩
      rw [if_pos hc, hp']
      rfl
  · unfold HMS.get_visits_for_pharmacy
    exact List.sorted_insertionSort srowLE _

/-- C3 witness: the four-combination database `dbQueue` (Pending/Completed ×
Visit Pharmacy/Done). -/
theorem pharmacy_queue_exact_witness :
    (∀ v ∈ dbQueue.visits, ∃ p ∈ dbQueue.patients, p.id = v.patient_id) ∧
    ((∀ v : Visit,
      (∃ r ∈ HMS.get_visits_for_pharmacy dbQueue, r.v = v) ↔
        (v ∈ dbQueue.visits ∧
          (v.pharmacy_status = some "Pending" ∨ v.status = some "Visit Pharmacy"))) ∧
    List.Sorted srowLE (HMS.get_visits_for_pharmacy dbQueue)) :=
  ⟨by decide, pharmacy_queue_exact dbQueue (by decide)⟩

/-! ## C9 — the days=5 history window covers [D-4, D] -/

/-- C9: for every patient and every value `today = D` of the clock,
`get_patient_visit_history` with `days = 5` (identical in both variants)
returns exactly the patient's visits dated within `[D-4, D]` inclusive —
every visit dated more than 4 days before today is excluded and every visit
dated today is included — ordered by date descending, then time_in
descending. -/
theorem visit_history_window (db : DBState) (pid : Nat) (today : Int) :
    (∀ v : Visit,
      (∃ r ∈ HMS.get_patient_visit_history db pid today 5, r.v = v) ↔
        (v ∈ db.visits ∧ v.patient_id = pid ∧
          today - 4 ≤ v.date ∧ v.date ≤ today)) ∧
    List.Sorted hrowLE (HMS.get_patient_visit_history db pid today 5) := by
  constructor
  · intro v
    constructor
    · rintro ⟨r, hr, rfl⟩
      simp only [HMS.get_patient_visit_history] at hr
      rw [mem_sortFilterMap] at hr
      obtain ⟨a, ha, hfa⟩ := hr
      by_cases hc : a.patient_id = pid ∧ today - (5 - 1) ≤ a.date ∧ a.date ≤ today
      · rw [if_pos hc] at hfa
        injection hfa with h
        rw [← h]
        exact ⟨ha, hc.1, by show today - 4 ≤ a.date; omega, hc.2.2⟩
      · rw [if_neg hc] at hfa
        simp at hfa
    · rintro ⟨hv, hpid, h1, h2⟩
      refine ⟨HRow.mk v (lookupDoctor db v.assigned_doctor_id), ?_, rfl⟩
      simp only [HMS.get_patient_visit_history]
      rw [mem_sortFilterMap]
      refine ⟨v, hv, ?_⟩
      rw [if_pos ⟨hpid, by omega, h2⟩]
  · simp only [HMS.get_patient_visit_history]
    exact List.sorted_insertionSort hrowLE _

/-! ## C10 — dangling visits are invisible to the joined reads -/

/-- C10: a visit whose `patient_id` references no patient row (reachable
because creation performs no existence check) is invisible rather than an
error: `get_visit` on its id returns `none` (not a partial record), and the
visit appears in no `get_visits_for_doctor` result for any doctor id and in
no `get_visits_for_pharmacy` result — the inner join with `patients` drops
it.  (`huniq` encodes that visit ids are a primary key.) -/
theorem dangling_visit_invisible (db : DBState) (v : Visit)
    (hv : v ∈ db.visits)
    (horphan : lookupPatient db v.patient_id = none)
    (huniq : ∀ w ∈ db.visits, w.id = v.id → w = v) :
    HMS.get_visit db v.id = none ∧
    (∀ did : Nat, ∀ r ∈ HMS.get_visits_for_doctor db did, r.1 ≠ v) ∧
    (∀ r ∈ HMS.get_visits_for_pharmacy db, r.v ≠ v) := by
  refine ⟨?_, ?_, ?_⟩
  · unfold HMS.get_visit
    rw [List.head?_eq_none_iff, List.filterMap_eq_nil_iff]
    intro a ha
    by_cases h : a.id = v.id
    · rw [if_pos h, huniq a ha h, horphan]
      rfl
    · rw [if_neg h]
  · intro did r hr hrv
    unfold HMS.get_visits_for_doctor at hr
    rw [mem_sortFilterMap] at hr
    obtain ⟨a, ha, hfa⟩ := hr
    by_cases h : a.assigned_doctor_id = some did
    · rw [if_pos h, Option.map_eq_some'] at hfa
      obtain ⟨p, hp, hmk⟩ := hfa
      rw [← hmk] at hrv
      have hav : a = v := hrv
      rw [hav, horphan] at hp
      cases hp
    · rw [if_neg h] at hfa
      simp at hfa
  · intro r hr hrv
    unfold HMS.get_visits_for_pharmacy at hr
    rw [mem_sortFilterMap] at hr
    obtain ⟨a, ha, hfa⟩ := hr
    by_cases h : a.pharmacy_status = some "Pending" ∨ a.status = some "Visit Pharmacy"
    · rw [if_pos h, Option.map_eq_some'] at hfa
      obtain ⟨p, hp, hmk⟩ := hfa
      rw [← hmk] at hrv
      have hav : a = v := hrv
      rw [hav, horphan] at hp
      cases hp
    · rw [if_neg h] at hfa
      simp at hfa

/-- C10 witness: the concrete dangling visit 5 of `dbDangling` (its
`patient_id` 99 references no patient; it would match the pharmacy filter
and has an assigned doctor, yet is invisible everywhere). -/
theorem dangling_visit_invisible_witness :
    (vDangling ∈ dbDangling.visits ∧
     lookupPatient dbDangling vDangling.patient_id = none ∧
     (∀ w ∈ dbDangling.visits, w.id = vDangling.id → w = vDangling)) ∧
    (HMS.get_visit dbDangling vDangling.id = none ∧
     (∀ did : Nat, ∀ r ∈ HMS.get_visits_for_doctor dbDangling did, r.1 ≠ vDangling) ∧
     (∀ r ∈ HMS.get_visits_for_pharmacy dbDangling, r.v ≠ vDangling)) :=
  ⟨⟨by decide, by decide, by decide⟩,
    dangling_visit_invisible dbDangling vDangling (by decide) (by decide) (by decide)⟩

/-! ## C8 — searching a visit by its numeric id -/

/-- C8 counterexample: `dbNoDoc` stores visit 1 (its patient exists) with no
assigned doctor — a legal state, since `assigned_doctor_id` is nullable until
assigned.  The term `"1"` parses to its id, yet variant 1's
`search_visits("1", "all")` returns the empty list: its `JOIN users` is an
inner join, so the id-matching visit is NOT included, contradicting the
claim's "includes that visit ... regardless". -/
theorem search_visits_id_cex :
    pyIntParse "1" = some ((1 : Nat) : Int) ∧
    dbNoDoc.visits.map Visit.id = [1] ∧
    HMS1.search_visits dbNoDoc "1" "all" = [] := by
  decide

/-- C8 amended: for every stored visit whose id equals the numeric value of
the search term, `searchVisits(term, "all")` includes that visit regardless
of the patient's name — provided the rows the inner joins need exist: in
variant 2 (`src/HospitalManagementSystem-Python/HMS.py`) only the visit's
patient row (its users join is a LEFT JOIN), while variant 1 (`src/HMS.py`)
additionally requires an assigned doctor with an existing user row (inner
`JOIN users`).  A term that fails numeric parsing skips the id-equality
branch rather than failing the whole search: in both variants, substring
matches (e.g. on the patient's name) are still returned. -/
theorem search_visits_id_match (db : DBState) (term : String) (v : Visit)
    (p : Patient)
    (hv : v ∈ db.visits)
    (hnum : pyIntParse term = some (v.id : Int))
    (hp : lookupPatient db v.patient_id = some p) :
    (∃ r ∈ HMS2.search_visits db term "all", r.v = v) ∧
    (∀ u : User, lookupDoctor db v.assigned_doctor_id = some u →
      ∃ r ∈ HMS1.search_visits db term "all", r.v = v) ∧
    (∀ t : String, pyIntParse t = none → strContainsCI p.full_name t = true →
      (∃ r ∈ HMS2.search_visits db t "all", r.v = v) ∧
      (∀ u : User, lookupDoctor db v.assigned_doctor_id = some u →
        ∃ r ∈ HMS1.search_visits db t "all", r.v = v)) := by
  refine ⟨?_, ?_, ?_⟩
  · refine ⟨SRow.mk v p ((lookupDoctor db v.assigned_doctor_id).map User.name),
      ?_, rfl⟩
    unfold HMS2.search_visits
    rw [mem_sortFilterMap]
    refine ⟨v, hv, ?_⟩
    simp [hp, sqlTextEqNat, hnum]
  · intro u hu
    refine ⟨SRow.mk v p (some u.name), ?_, rfl⟩
    unfold HMS1.search_visits
    rw [mem_sortFilterMap]
    refine ⟨v, hv, ?_⟩
    simp [hp, hu, hnum]
  · intro t ht hmatch
    constructor
    · refine ⟨SRow.mk v p ((lookupDoctor db v.assigned_doctor_id).map User.name),
        ?_, rfl⟩
      unfold HMS2.search_visits
      rw [mem_sortFilterMap]
      refine ⟨v, hv, ?_⟩
      simp [hp, hmatch]
    · intro u hu
      refine ⟨SRow.mk v p (some u.name), ?_, rfl⟩
      unfold HMS1.search_visits
      rw [mem_sortFilterMap]
      refine ⟨v, hv, ?_⟩
      simp [hp, hu, ht, hmatch]

/-- C8 witness: searching `"42"` in `dbSearch` finds visit 42 in both
variants (variant 1 via its assigned doctor `uDoc`), and the non-numeric
term `"Jo"`-style degradation clause is instantiated concretely. -/
theorem search_visits_id_match_witness :
    (vSearch ∈ dbSearch.visits ∧
     pyIntParse "42" = some ((vSearch.id : Nat) : Int) ∧
     lookupPatient dbSearch vSearch.patient_id = some pA) ∧
    ((∃ r ∈ HMS2.search_visits dbSearch "42" "all", r.v = vSearch) ∧
     (∀ u : User, lookupDoctor dbSearch vSearch.assigned_doctor_id = some u →
        ∃ r ∈ HMS1.search_visits dbSearch "42" "all", r.v = vSearch) ∧
     (∀ t : String, pyIntParse t = none →
        strContainsCI pA.full_name t = true →
        (∃ r ∈ HMS2.search_visits dbSearch t "all", r.v = vSearch) ∧
        (∀ u : User, lookupDoctor dbSearch vSearch.assigned_doctor_id = some u →
          ∃ r ∈ HMS1.search_visits dbSearch t "all", r.v = vSearch))) :=
  ⟨⟨by decide, by decide, by decide⟩,
    search_visits_id_match dbSearch "42" vSearch pA
      (by decide) (by decide) (by decide)⟩
